import Mathlib

/-!
Verification of the infra-pathfinder deployment orchestration pipeline.

The definitions below are a shallow embedding of the repository's shell
orchestration code:

* `wait_for_build_step` / `wait_for_build` — the `wait_for_build` function of
  `scripts/deploy.sh` (the identical function also appears in the two
  co-located deploy-script variants): one AWS CodeBuild status query per loop
  iteration, with a `case` dispatch on the returned status string.
* `workflow_poll` — the GitHub-workflow poll loop (`while IN_PROGRESS ... done`
  followed by one final status query).
* `deploy_run` — the step-1..6 control flow of `scripts/deploy.sh` under
  `set -e` semantics.
* `part000_verify` — the stabilization-wait / diagnostics / health-check block
  of the co-located deploy script that wraps `aws ecs wait services-stable`
  in `timeout 600`.
* the legacy Pulumi pipeline (`apps/infra/legacy/index.ts`), the application
  buildspec (`apps/web/buildspec.yml`), the one-shot migration task script and
  `apps/web/scripts/run-migrations.ts`.
-/

/-- Result of one iteration of the CodeBuild polling `case` statement:
return 0, return 1, or sleep for the given number of seconds and query again. -/
inductive PollStep
  | success
  | failure
  | sleepRetry (secs : Nat)
deriving DecidableEq, Repr

/-- One iteration of `wait_for_build` in `scripts/deploy.sh`: the `case $status`
dispatch.  The `IN_PROGRESS` arm and the default `*` arm both sleep 30 seconds
and loop; they differ only in the log line they print. -/
def wait_for_build_step (status : String) : PollStep :=
  if status = "SUCCEEDED" then PollStep.success
  else if status = "FAILED" ∨ status = "FAULT" ∨ status = "STOPPED" ∨ status = "TIMED_OUT" then
    PollStep.failure
  else if status = "IN_PROGRESS" then PollStep.sleepRetry 30
  else PollStep.sleepRetry 30

/-- `wait_for_build` run against a (finite prefix of a) sequence of observed
build statuses, one status per query.  Returns the outcome (`some true` for
`return 0`, `some false` for `return 1`, `none` when the supplied statuses are
exhausted with the loop still running) together with the number of status
queries issued. -/
def wait_for_build : List String → Option Bool × Nat
  | [] => (none, 0)
  | s :: rest =>
    match wait_for_build_step s with
    | PollStep.success => (some true, 1)
    | PollStep.failure => (some false, 1)
    | PollStep.sleepRetry _ => ((wait_for_build rest).fst, (wait_for_build rest).snd + 1)

/-- Whether a poll-step result is terminal (the loop returns instead of
sleeping and querying again). -/
def terminal_step : PollStep → Bool
  | PollStep.success => true
  | PollStep.failure => true
  | PollStep.sleepRetry _ => false

/-- The GitHub-workflow app-build poll loop: the `while` condition issues one
status query per evaluation and keeps looping while it reads `IN_PROGRESS`.
Returns the number of queries the `while` loop consumed (`none` when the fuel
runs out with the loop still spinning).  The argument `i` is the index of the
next query in the status sequence. -/
def workflow_poll_loop (statuses : Nat → String) : Nat → Nat → Option Nat
  | _, 0 => none
  | i, fuel + 1 =>
    if statuses i = "IN_PROGRESS" then workflow_poll_loop statuses (i + 1) fuel
    else some (i + 1)

/-- The GitHub-workflow build wait: the `while IN_PROGRESS` loop followed by
one more `batch-get-builds` query whose result is compared against
`SUCCEEDED`.  Returns `some (succeeded, total number of status queries)`. -/
def workflow_poll (statuses : Nat → String) (fuel : Nat) : Option (Bool × Nat) :=
  match workflow_poll_loop statuses 0 fuel with
  | none => none
  | some loopQueries =>
    some (decide (statuses loopQueries = "SUCCEEDED"), loopQueries + 1)

/-- A build whose observed status sequence is IN_PROGRESS, IN_PROGRESS and then
SUCCEEDED from the third query on. -/
def c5_stream_a : Nat → String := fun n => if n < 2 then "IN_PROGRESS" else "SUCCEEDED"

/-- A build whose observed status sequence is IN_PROGRESS and then FAILED from
the second query on. -/
def c5_stream_b : Nat → String := fun n => if n < 1 then "IN_PROGRESS" else "FAILED"

/-- The stages `scripts/deploy.sh` can invoke, in script order.
`migrationSkip` stands for the spec's content-hash skip event and
`diagnostics` for the surfacing of the stabilization-failure diagnostic bundle
(counts, recent events, stop reasons); no line of `scripts/deploy.sh` emits
either — the diagnostic bundle exists only in the co-located script variant,
modelled separately by `part000_verify`. -/
inductive Stage
  | infraUpdate
  | migrationBuild
  | migrationRun
  | migrationSkip
  | appBuild
  | deployTrigger
  | stabilizationWait
  | healthVerify
  | diagnostics
deriving DecidableEq, Repr

/-- The remote outcomes a run of `scripts/deploy.sh` observes: the result of
`pulumi up`, the status sequences the three `wait_for_build` calls poll, the
exit statuses of `aws ecs update-service` and `aws ecs wait services-stable`,
and the behaviour of the final `curl` probe. -/
structure DeployEnv where
  pulumiOk : Bool
  migBuildStatuses : List String
  migRunStatuses : List String
  appBuildStatuses : List String
  updateServiceOk : Bool
  servicesStableOk : Bool
  healthReachable : Bool
  healthStatus : Nat
deriving DecidableEq, Repr

/-- `curl -sf URL`: exit 0 exactly when the host was reachable and the HTTP
response code was below 400 (`-f` turns 4xx/5xx into exit code 22; redirects
are not followed and are not failures). -/
def curl_sf (reachable : Bool) (status : Nat) : Bool :=
  reachable && decide (status < 400)

/-- `scripts/deploy.sh` under `set -e`: steps 1-6 in order, each failing step
aborting the script with a non-zero exit code.  Returns `none` when a
`wait_for_build` loop never observes a terminal status (the script would poll
forever), otherwise `some (invoked stages, exit code)`. -/
def deploy_run (e : DeployEnv) : Option (List Stage × Nat) :=
  if e.pulumiOk = true then
    match (wait_for_build e.migBuildStatuses).fst with
    | none => none
    | some false => some ([Stage.infraUpdate, Stage.migrationBuild], 1)
    | some true =>
      match (wait_for_build e.migRunStatuses).fst with
      | none => none
      | some false => some ([Stage.infraUpdate, Stage.migrationBuild, Stage.migrationRun], 1)
      | some true =>
        match (wait_for_build e.appBuildStatuses).fst with
        | none => none
        | some false =>
          some ([Stage.infraUpdate, Stage.migrationBuild, Stage.migrationRun, Stage.appBuild], 1)
        | some true =>
          if e.updateServiceOk = true then
            if e.servicesStableOk = true then
              some ([Stage.infraUpdate, Stage.migrationBuild, Stage.migrationRun, Stage.appBuild,
                     Stage.deployTrigger, Stage.stabilizationWait, Stage.healthVerify],
                    if curl_sf e.healthReachable e.healthStatus then 0 else 1)
            else
              some ([Stage.infraUpdate, Stage.migrationBuild, Stage.migrationRun, Stage.appBuild,
                     Stage.deployTrigger, Stage.stabilizationWait], 1)
          else
            some ([Stage.infraUpdate, Stage.migrationBuild, Stage.migrationRun, Stage.appBuild,
                   Stage.deployTrigger], 1)
  else
    some ([Stage.infraUpdate], 1)

/-- The exit code of a `scripts/deploy.sh` run (`none` when it polls forever). -/
def deploy_exit (e : DeployEnv) : Option Nat :=
  (deploy_run e).map Prod.snd

/-- A run in which every remote collaborator succeeds and the health endpoint
answers 200. -/
def env0 : DeployEnv :=
  { pulumiOk := true
    migBuildStatuses := ["SUCCEEDED"]
    migRunStatuses := ["SUCCEEDED"]
    appBuildStatuses := ["SUCCEEDED"]
    updateServiceOk := true
    servicesStableOk := true
    healthReachable := true
    healthStatus := 200 }

/-- Same as `env0` except the health endpoint answers with a 301 redirect. -/
def env301 : DeployEnv :=
  { env0 with healthStatus := 301 }

/-- Number of occurrences of a stage in the trace of a `deploy_run`. -/
def trace_count (e : DeployEnv) (s : Stage) : Nat :=
  match deploy_run e with
  | none => 0
  | some (tr, _) => tr.count s

/-- The observable actions of the co-located deploy script's verification
block: the `timeout 600 aws ecs wait services-stable` call, the diagnostic
commands of its failure branch, and the ALB lookup plus `curl` probe of its
success path. -/
inductive StabAct
  | waitStable (timeoutSecs : Nat)
  | showCounts (desired running pending : Nat)
  | showEvents (events : List String)
  | listStoppedTasks
  | showStopReasons (reasons : List (String × String))
  | lookupAlb
  | probeHealth
deriving DecidableEq, Repr

/-- What the container orchestrator reports to the verification block of the
co-located deploy script: whether the service stabilized within the 600-second
bound, the service counters, the event list (most recent first, as
`describe-services` returns it), the stopped tasks with their stop reasons,
and the health endpoint's behaviour. -/
structure StabEnv where
  stableWithinTimeout : Bool
  desired : Nat
  running : Nat
  pending : Nat
  events : List String
  stoppedTasks : List (String × String)
  healthReachable : Bool
  healthStatus : Nat
deriving DecidableEq, Repr

/-- Step 3 of the co-located deploy script: `timeout 600 aws ecs wait
services-stable`; on failure, print the desired/running/pending counts, the
first five service events (`events[0:5]`), list up to three stopped tasks
(`taskArns[0:3]`) and, when there are any, their stop reasons, then `exit 1`;
on success, look up the load balancer and run the `curl -sf` health check. -/
def part000_verify (e : StabEnv) : List StabAct × Nat :=
  if e.stableWithinTimeout then
    ([StabAct.waitStable 600, StabAct.lookupAlb, StabAct.probeHealth],
     if curl_sf e.healthReachable e.healthStatus then 0 else 1)
  else
    ([StabAct.waitStable 600,
      StabAct.showCounts e.desired e.running e.pending,
      StabAct.showEvents (e.events.take 5),
      StabAct.listStoppedTasks] ++
     (if (e.stoppedTasks.take 3).isEmpty then []
      else [StabAct.showStopReasons (e.stoppedTasks.take 3)]),
     1)

/-- The observations of one run of the legacy Pulumi pipeline
(`apps/infra/legacy/index.ts`): whether the `aws ecs run-task` launch call of
the `run-migrations` command resource was accepted, and the exit code the
launched migration container eventually stops with (`none` when unreadable). -/
structure LegacyEnv where
  runTaskLaunchOk : Bool
  migrationContainerExit : Option Nat
deriving DecidableEq, Repr

/-- The `run-migrations` command resource of the legacy pipeline: its create
script runs `aws ecs run-task` and then prints that the task was started
("check ECS console for status").  The resource succeeds as soon as the launch
call is accepted; it never waits for the task to stop and never reads its exit
code. -/
def legacy_run_migrations_created (e : LegacyEnv) : Bool :=
  e.runTaskLaunchOk

/-- The `pathfinder-app-image` resource of the legacy pipeline: it is built
whenever its only dependency, the `run-migrations` command resource, was
created successfully. -/
def legacy_app_image_built (e : LegacyEnv) : Bool :=
  legacy_run_migrations_created e

/-- Whether the launched migration task's terminal state is a success,
that is, its container stopped with exit code 0. -/
def legacy_migration_succeeded (e : LegacyEnv) : Bool :=
  match e.migrationContainerExit with
  | some 0 => true
  | _ => false

/-- `pre_build` of `apps/web/buildspec.yml`: `COMMIT_HASH` is the first seven
characters of `CODEBUILD_RESOLVED_SOURCE_VERSION` and the image tag falls back
to `latest` when that is empty. -/
def imageTag (resolvedSourceVersion : String) : String :=
  let commitHash := resolvedSourceVersion.take 7
  if commitHash = "" then "latest" else commitHash

/-- Outcomes of the three remote calls of the buildspec's `post_build` phase:
the two `docker push` commands and the `aws ecs update-service
--force-new-deployment` call. -/
structure BuildspecEnv where
  pushTagOk : Bool
  pushLatestOk : Bool
  updateServiceAccepted : Bool
deriving DecidableEq, Repr

/-- The commands of the buildspec's `post_build` phase. -/
inductive PostAct
  | pushImage (tag : String)
  | forceNewDeployment
  | writeImageDefinitions
deriving DecidableEq, Repr

/-- The `post_build` phase of `apps/web/buildspec.yml` as the sequence of
commands it executes: push the commit-tagged image, push `latest`, issue
`update-service --force-new-deployment` (the guard makes a rejected call
`exit 1`), and write `imagedefinitions.json`.  A failing command ends the
phase, so later commands only run when the earlier ones succeeded. -/
def post_build_trace (e : BuildspecEnv) (tag : String) : List PostAct :=
  [PostAct.pushImage tag] ++
  (if e.pushTagOk then
    [PostAct.pushImage "latest"] ++
    (if e.pushLatestOk then
      [PostAct.forceNewDeployment] ++
      (if e.updateServiceAccepted then [PostAct.writeImageDefinitions] else [])
     else [])
   else [])

/-- Whether the `post_build` phase succeeds: all three remote calls must. -/
def post_build_success (e : BuildspecEnv) : Bool :=
  e.pushTagOk && e.pushLatestOk && e.updateServiceAccepted

/-- The terminal CodeBuild status of an application build whose earlier phases
succeeded: a failing `post_build` command fails the whole build job. -/
def build_job_status (e : BuildspecEnv) : String :=
  if post_build_success e then "SUCCEEDED" else "FAILED"

/-- The commands of the one-shot migration task script. -/
inductive MigTaskAct
  | runTask
  | waitTasksStopped
  | readExitCode
deriving DecidableEq, Repr

/-- The orchestrator-task migration script: `aws ecs run-task`, `aws ecs wait
tasks-stopped`, then read the container's exit code as text
(`describe-tasks` prints `None` when it is unreadable) and `exit 1` unless
that text is `0`. -/
def migration_task_script (exitCodeText : String) : List MigTaskAct × Nat :=
  ([MigTaskAct.runTask, MigTaskAct.waitTasksStopped, MigTaskAct.readExitCode],
   if exitCodeText = "0" then 0 else 1)

/-- `apps/web/scripts/run-migrations.ts`: one unconditional `migrate` call,
then `process.exit(0)` on success and `process.exit(1)` on any error.
Returns (number of real `migrate` calls, process exit code). -/
def runMigrations_ts (migrateOk : Bool) : Nat × Nat :=
  (1, if migrateOk then 0 else 1)

/-- Follows the spec's words, for comparison with `curl_sf`: the spec's Health
Verifier treats any non-2xx or non-reachable result as Unhealthy. -/
def spec_healthy (reachable : Bool) (status : Nat) : Bool :=
  reachable && decide (200 ≤ status) && decide (status ≤ 299)

/-- A stabilization failure as the verification block can observe it: the
service never stabilized, one task already stopped with a recorded reason. -/
def stab_env_example : StabEnv :=
  { stableWithinTimeout := false
    desired := 2
    running := 0
    pending := 1
    events := ["event1", "event2", "event3", "event4", "event5", "event6"]
    stoppedTasks := [("arn-task-1", "OutOfMemoryError: container killed")]
    healthReachable := true
    healthStatus := 200 }

/-- The full trace of a completely successful `scripts/deploy.sh` run. -/
def env0_trace : List Stage :=
  [Stage.infraUpdate, Stage.migrationBuild, Stage.migrationRun, Stage.appBuild,
   Stage.deployTrigger, Stage.stabilizationWait, Stage.healthVerify]

/-- A `scripts/deploy.sh` run in which every stage succeeds except the
`aws ecs wait services-stable` call, which returns non-zero. -/
def envStabFail : DeployEnv :=
  { env0 with servicesStableOk := false }

/-- The trace of `envStabFail`: the run ends right after the stabilization
wait. -/
def stabFail_trace : List Stage :=
  [Stage.infraUpdate, Stage.migrationBuild, Stage.migrationRun, Stage.appBuild,
   Stage.deployTrigger, Stage.stabilizationWait]

theorem wfb_nonterminal_replicate (s : String)
    (hs : terminal_step (wait_for_build_step s) = false) :
    ∀ n : Nat, wait_for_build (List.replicate n s) = (none, n) := by
  intro n
  induction n with
  | zero => rfl
  | succ k ih =>
    rw [List.replicate_succ]
    unfold wait_for_build
    cases h : wait_for_build_step s with
    | success => rw [h] at hs; simp [terminal_step] at hs
    | failure => rw [h] at hs; simp [terminal_step] at hs
    | sleepRetry t => simp [ih]

theorem wfb_terminates_iff (l : List String) :
    (wait_for_build l).fst.isSome = true ↔
      ∃ x ∈ l, terminal_step (wait_for_build_step x) = true := by
  induction l with
  | nil => simp [wait_for_build]
  | cons s rest ih =>
    unfold wait_for_build
    cases h : wait_for_build_step s with
    | success => simp [h, terminal_step]
    | failure => simp [h, terminal_step]
    | sleepRetry t =>
      simp only [List.mem_cons]
      constructor
      · intro hsome
        obtain ⟨x, hx, hterm⟩ := ih.mp hsome
        exact ⟨x, Or.inr hx, hterm⟩
      · rintro ⟨x, hx | hx, hterm⟩
        · rw [hx, h] at hterm; simp [terminal_step] at hterm
        · exact ih.mpr ⟨x, hx, hterm⟩

theorem deploy_sh_gates_app_build (e : DeployEnv) (tr : List Stage) (code : Nat)
    (h : deploy_run e = some (tr, code))
    (hmr : (wait_for_build e.migRunStatuses).fst ≠ some true) :
    Stage.appBuild ∉ tr := by
  unfold deploy_run at h
  by_cases hp : e.pulumiOk = true
  · rw [if_pos hp] at h
    cases h1 : (wait_for_build e.migBuildStatuses).fst with
    | none => rw [h1] at h; cases h
    | some b1 =>
      cases b1 with
      | false => rw [h1] at h; cases h; decide
      | true =>
        rw [h1] at h
        cases h2 : (wait_for_build e.migRunStatuses).fst with
        | none => rw [h2] at h; cases h
        | some b2 =>
          cases b2 with
          | false => rw [h2] at h; cases h; decide
          | true => exact absurd h2 hmr
  · rw [if_neg hp] at h
    cases h
    decide

/-- Claim C1, the code evaluated at the failing input: in the legacy Pulumi
pipeline, when the `aws ecs run-task` launch is accepted but the migration
container later stops with exit code 1, the application image is built anyway,
because the `run-migrations` command resource succeeds at launch time and never
observes the task's terminal status — contradicting the code's own comments
("builds AFTER migrations succeed", "Wait for migrations to complete before
building app") and the spec's core ordering invariant. -/
theorem legacy_app_build_after_failed_migration :
    legacy_app_image_built { runTaskLaunchOk := true, migrationContainerExit := some 1 } = true
    ∧ legacy_migration_succeeded { runTaskLaunchOk := true, migrationContainerExit := some 1 }
        = false :=
  ⟨rfl, rfl⟩

/-- Claim C2, counterexample: the `wait_for_build` poll loop has no bound — for
no number N of queries is it the case that every status sequence of length N
has driven the loop to a terminal outcome; on an all-IN_PROGRESS sequence the
loop polls forever. -/
theorem wait_for_build_unbounded :
    ¬ ∃ N : Nat, ∀ l : List String, N ≤ l.length → (wait_for_build l).fst.isSome = true := by
  rintro ⟨N, h⟩
  have h1 := h (List.replicate N "IN_PROGRESS") (by simp)
  rw [wfb_nonterminal_replicate "IN_PROGRESS" (by decide) N] at h1
  simp at h1

/-- Claim C2, amended: the CodeBuild poll loop terminates exactly when the
observed status sequence contains a terminal status (it has no timeout of its
own), and the only stabilization wait with an explicit bound is the co-located
script's `timeout 600 aws ecs wait services-stable`. -/
theorem poll_termination_characterization :
    (∀ l : List String,
        ((wait_for_build l).fst.isSome = true ↔
          ∃ x ∈ l, terminal_step (wait_for_build_step x) = true))
    ∧ (∀ e : StabEnv, StabAct.waitStable 600 ∈ (part000_verify e).fst) := by
  constructor
  · exact wfb_terminates_iff
  · intro e
    unfold part000_verify
    by_cases h : e.stableWithinTimeout <;> simp [h]

/-- Claim C10: a status string outside the six recognized ones falls into the
default arm of the `case` statement — sleep 30 seconds and query again — and
any number of such statuses in a row leaves the loop polling, never producing
a failure outcome. -/
theorem unknown_status_keeps_polling :
    (∀ s : String,
        s ∉ (["SUCCEEDED", "FAILED", "FAULT", "STOPPED", "TIMED_OUT", "IN_PROGRESS"] :
              List String) →
        wait_for_build_step s = PollStep.sleepRetry 30)
    ∧ (∀ n : Nat, wait_for_build (List.replicate n "None") = (none, n)) := by
  constructor
  · intro s hs
    simp only [List.mem_cons, List.not_mem_nil, or_false, not_or] at hs
    obtain ⟨h1, h2, h3, h4, h5, h6⟩ := hs
    unfold wait_for_build_step
    rw [if_neg h1, if_neg (by simp [h2, h3, h4, h5]), if_neg h6]
  · exact wfb_nonterminal_replicate "None" (by decide)

/-- Claim C10, witness: the status `None` (what `batch-get-builds` prints for
an unknown build id) is handled by the default arm, and four `None` answers in
a row leave the loop still polling after four queries. -/
theorem unknown_status_keeps_polling_witness :
    wait_for_build_step "None" = PollStep.sleepRetry 30
    ∧ wait_for_build (List.replicate 4 "None") = (none, 4) :=
  ⟨unknown_status_keeps_polling.1 "None" (by decide), unknown_status_keeps_polling.2 4⟩

/-- Helper for the co-located variant: when the 600-second stabilization wait
of the co-located deploy script fails, the script surfaces the
desired/running/pending counts, the five most recent service events in order
and — whenever stopped tasks exist — their stop reasons, exits with code 1,
and never reaches the health probe. -/
theorem stabilization_timeout_diagnostics (e : StabEnv)
    (h : e.stableWithinTimeout = false) :
    (part000_verify e).snd = 1
    ∧ StabAct.showCounts e.desired e.running e.pending ∈ (part000_verify e).fst
    ∧ StabAct.showEvents (e.events.take 5) ∈ (part000_verify e).fst
    ∧ (e.stoppedTasks ≠ [] →
        StabAct.showStopReasons (e.stoppedTasks.take 3) ∈ (part000_verify e).fst)
    ∧ StabAct.probeHealth ∉ (part000_verify e).fst := by
  unfold part000_verify
  rw [h]
  simp only [Bool.false_eq_true, if_false]
  refine ⟨by trivial, by simp, by simp, ?_, ?_⟩
  · intro hne
    have htk : (e.stoppedTasks.take 3).isEmpty = false := by
      rw [List.isEmpty_eq_false]
      rw [Ne, List.take_eq_nil_iff]
      simp [hne]
    rw [htk]
    simp
  · by_cases htk : (e.stoppedTasks.take 3).isEmpty <;> simp [htk]

/-- Concrete instance of the previous helper: on a failed stabilization with
one stopped task, the verification block exits 1 and surfaces the stop
reason. -/
theorem stabilization_timeout_diagnostics_witness :
    (part000_verify stab_env_example).snd = 1
    ∧ StabAct.showStopReasons [("arn-task-1", "OutOfMemoryError: container killed")]
        ∈ (part000_verify stab_env_example).fst :=
  ⟨(stabilization_timeout_diagnostics stab_env_example rfl).1,
   (stabilization_timeout_diagnostics stab_env_example rfl).2.2.2.1 (by decide)⟩

/-- Claim C4, counterexample: with every stage succeeding and the health
endpoint answering a 301 redirect — a non-2xx response — `curl -sf` exits 0
and the pipeline reports overall success, although the claim requires every
non-2xx response to be classified Unhealthy. -/
theorem health_redirect_passes_pipeline :
    deploy_exit env301 = some 0
    ∧ spec_healthy true 301 = false
    ∧ curl_sf true 301 = true := by
  decide

/-- Claim C4, amended: the probe treats unreachable hosts and HTTP status 400
and above as Unhealthy (3xx passes, by `curl -f` semantics), and the pipeline
exits 0 exactly when every stage succeeded and that final single probe passed;
any stage failure yields a non-zero exit. -/
theorem deploy_exit_zero_iff (e : DeployEnv) :
    deploy_exit e = some 0 ↔
      (e.pulumiOk = true
       ∧ (wait_for_build e.migBuildStatuses).fst = some true
       ∧ (wait_for_build e.migRunStatuses).fst = some true
       ∧ (wait_for_build e.appBuildStatuses).fst = some true
       ∧ e.updateServiceOk = true
       ∧ e.servicesStableOk = true
       ∧ curl_sf e.healthReachable e.healthStatus = true) := by
  unfold deploy_exit deploy_run
  by_cases hp : e.pulumiOk = true
  · rw [if_pos hp]
    cases h1 : (wait_for_build e.migBuildStatuses).fst with
    | none => simp [hp, h1]
    | some b1 =>
      cases b1 with
      | false => simp [hp, h1]
      | true =>
        cases h2 : (wait_for_build e.migRunStatuses).fst with
        | none => simp [hp, h1, h2]
        | some b2 =>
          cases b2 with
          | false => simp [hp, h1, h2]
          | true =>
            cases h3 : (wait_for_build e.appBuildStatuses).fst with
            | none => simp [hp, h1, h2, h3]
            | some b3 =>
              cases b3 with
              | false => simp [hp, h1, h2, h3]
              | true =>
                by_cases hu : e.updateServiceOk = true
                · rw [if_pos hu]
                  by_cases hs : e.servicesStableOk = true
                  · rw [if_pos hs]
                    cases hc : curl_sf e.healthReachable e.healthStatus <;>
                      simp [hp, h1, h2, h3, hu, hs, hc]
                  · rw [if_neg hs]
                    simp [hp, h1, h2, h3, hu, hs]
                · rw [if_neg hu]
                  simp [hp, h1, h2, h3, hu]
  · rw [if_neg hp]
    simp [hp]

/-- Claim C5, counterexample: the workflow's app-build poll loop — one of the
claim's cited loops — issues 4 status queries, not 3, on the sequence
IN_PROGRESS, IN_PROGRESS, SUCCEEDED (and 3, not 2, on IN_PROGRESS, FAILED),
because one extra query re-reads the final status after the `while` exits. -/
theorem workflow_poll_extra_query :
    workflow_poll c5_stream_a 10 = some (true, 4)
    ∧ workflow_poll c5_stream_b 10 = some (false, 3)
    ∧ ¬ workflow_poll c5_stream_a 10 = some (true, 3) := by
  decide

/-- Claim C5, amended: `wait_for_build` issues exactly 3 queries then succeeds
on IN_PROGRESS, IN_PROGRESS, SUCCEEDED and exactly 2 then fails on
IN_PROGRESS, FAILED; the workflow loop issues one more query in each case
(4 and 3); in both loops each of FAILED, FAULT, STOPPED and TIMED_OUT yields
the same single failure outcome, and SUCCEEDED is the only status mapped to
success. -/
theorem poll_query_counts :
    wait_for_build ["IN_PROGRESS", "IN_PROGRESS", "SUCCEEDED"] = (some true, 3)
    ∧ wait_for_build ["IN_PROGRESS", "FAILED"] = (some false, 2)
    ∧ workflow_poll c5_stream_a 10 = some (true, 4)
    ∧ workflow_poll c5_stream_b 10 = some (false, 3)
    ∧ wait_for_build ["FAILED"] = (some false, 1)
    ∧ wait_for_build ["FAULT"] = (some false, 1)
    ∧ wait_for_build ["STOPPED"] = (some false, 1)
    ∧ wait_for_build ["TIMED_OUT"] = (some false, 1)
    ∧ (∀ s : String, wait_for_build_step s = PollStep.success ↔ s = "SUCCEEDED") := by
  refine ⟨by decide, by decide, by decide, by decide, by decide, by decide, by decide, by decide,
          ?_⟩
  intro s
  constructor
  · intro hsucc
    by_contra hne
    unfold wait_for_build_step at hsucc
    rw [if_neg hne] at hsucc
    by_cases hf : (s = "FAILED" ∨ s = "FAULT" ∨ s = "STOPPED" ∨ s = "TIMED_OUT")
    · rw [if_pos hf] at hsucc; simp at hsucc
    · rw [if_neg hf] at hsucc
      by_cases hip : s = "IN_PROGRESS"
      · rw [if_pos hip] at hsucc; simp at hsucc
      · rw [if_neg hip] at hsucc; simp at hsucc
  · intro h
    rw [h]
    decide

/-- Claim C6: the image tag is a deterministic function of the source revision
(the 7-character commit-hash prefix), so a re-run of the same revision
references an unchanged — not a genuinely new — tag; the claim's fallback
branch is what the code implements: every build that pushes its images also
explicitly issues the force-new-deployment call, so the unchanged tag is
re-pulled rather than silently reused. -/
theorem image_tag_or_forced_redeploy (rev : String) (e : BuildspecEnv)
    (h1 : e.pushTagOk = true) (h2 : e.pushLatestOk = true) :
    imageTag rev ≠ imageTag rev
    ∨ PostAct.forceNewDeployment ∈ post_build_trace e (imageTag rev) := by
  right
  simp [post_build_trace, h1, h2]

/-- Claim C6, witness: at a concrete revision, with both pushes succeeding,
the post_build trace contains the force-new-deployment call. -/
theorem image_tag_or_forced_redeploy_witness :
    imageTag "a1b2c3d4e5f6" ≠ imageTag "a1b2c3d4e5f6"
    ∨ PostAct.forceNewDeployment
        ∈ post_build_trace ⟨true, true, true⟩ (imageTag "a1b2c3d4e5f6") :=
  image_tag_or_forced_redeploy "a1b2c3d4e5f6" ⟨true, true, true⟩ rfl rfl

/-- Claim C7: the one-shot migration task runner launches the task, waits for
it to stop, then reads the container's exit code; the text `0` is the only
exit-code reading that yields success (exit 0), and any other reading —
including the `None` printed for an unreadable exit code — yields failure
(exit 1).  The exit code `run-migrations.ts` produces (0 on success, 1 on
error) maps through the gate unchanged. -/
theorem migration_task_exit_gate :
    (∀ s : String, (migration_task_script s).snd = 0 ↔ s = "0")
    ∧ (migration_task_script "None").snd = 1
    ∧ (∀ ok : Bool,
        (migration_task_script (toString (runMigrations_ts ok).snd)).snd
          = if ok then 0 else 1)
    ∧ (migration_task_script "0").fst
        = [MigTaskAct.runTask, MigTaskAct.waitTasksStopped, MigTaskAct.readExitCode] := by
  refine ⟨?_, by decide, ?_, by decide⟩
  · intro s
    constructor
    · intro h
      by_contra hs
      unfold migration_task_script at h
      rw [if_neg hs] at h
      exact one_ne_zero h
    · intro h
      rw [h]
      decide
  · intro ok
    cases ok <;> decide

/-- Claim C8, counterexample: two runs of the pipeline over an unchanged
migration source set perform two real migration executions and zero skips —
not the claimed one execution and one skip — because no content-hash check
exists anywhere in the pipeline. -/
theorem double_run_two_migrations :
    trace_count env0 Stage.migrationRun + trace_count env0 Stage.migrationRun = 2
    ∧ trace_count env0 Stage.migrationSkip + trace_count env0 Stage.migrationSkip = 0
    ∧ ¬ (trace_count env0 Stage.migrationRun + trace_count env0 Stage.migrationRun = 1
         ∧ trace_count env0 Stage.migrationSkip + trace_count env0 Stage.migrationSkip = 1) := by
  decide

/-- Claim C8, amended: the pipeline has no content-hash skip: a run never emits
a skip event, and every run that passes infrastructure update and the
migration-image build starts exactly one real migration run, unconditionally. -/
theorem migration_run_unconditional (e : DeployEnv) (tr : List Stage) (code : Nat)
    (h : deploy_run e = some (tr, code)) :
    tr.count Stage.migrationSkip = 0
    ∧ (e.pulumiOk = true → (wait_for_build e.migBuildStatuses).fst = some true →
        tr.count Stage.migrationRun = 1) := by
  unfold deploy_run at h
  by_cases hp : e.pulumiOk = true
  · rw [if_pos hp] at h
    cases h1 : (wait_for_build e.migBuildStatuses).fst with
    | none => rw [h1] at h; cases h
    | some b1 =>
      cases b1 with
      | false =>
        rw [h1] at h
        cases h
        refine ⟨by decide, ?_⟩
        intro _ h2
        simp at h2
      | true =>
        rw [h1] at h
        cases h2 : (wait_for_build e.migRunStatuses).fst with
        | none => rw [h2] at h; cases h
        | some b2 =>
          cases b2 with
          | false =>
            rw [h2] at h
            cases h
            exact ⟨by decide, fun _ _ => by decide⟩
          | true =>
            rw [h2] at h
            cases h3 : (wait_for_build e.appBuildStatuses).fst with
            | none => rw [h3] at h; cases h
            | some b3 =>
              cases b3 with
              | false =>
                rw [h3] at h
                cases h
                exact ⟨by decide, fun _ _ => by decide⟩
              | true =>
                rw [h3] at h
                by_cases hu : e.updateServiceOk = true
                · rw [if_pos hu] at h
                  by_cases hs : e.servicesStableOk = true
                  · rw [if_pos hs] at h
                    cases h
                    exact ⟨by decide, fun _ _ => by decide⟩
                  · rw [if_neg hs] at h
                    cases h
                    exact ⟨by decide, fun _ _ => by decide⟩
                · rw [if_neg hu] at h
                  cases h
                  exact ⟨by decide, fun _ _ => by decide⟩
  · rw [if_neg hp] at h
    cases h
    exact ⟨by decide, fun hptrue _ => absurd hptrue hp⟩

/-- Claim C8, amended claim's witness: the trace of a fully successful run
contains no skip and exactly one migration run. -/
theorem migration_run_unconditional_witness :
    env0_trace.count Stage.migrationSkip = 0
    ∧ env0_trace.count Stage.migrationRun = 1 :=
  ⟨(migration_run_unconditional env0 env0_trace 0 (by decide)).1,
   (migration_run_unconditional env0 env0_trace 0 (by decide)).2 rfl (by decide)⟩

/-- Claim C9: when the application build reaches a successful terminal status,
its post_build phase pushed the commit-tagged image and `latest` and then
issued the force-new-deployment call; and whenever that call is rejected, the
build job itself terminates FAILED — a rejected rollout trigger surfaces as an
application-build failure. -/
theorem post_build_rollout_gate (e : BuildspecEnv) (tag : String) :
    (build_job_status e = "SUCCEEDED" →
       post_build_trace e tag
         = [PostAct.pushImage tag, PostAct.pushImage "latest",
            PostAct.forceNewDeployment, PostAct.writeImageDefinitions])
    ∧ (e.updateServiceAccepted = false → build_job_status e = "FAILED") := by
  constructor
  · intro h
    have hs : post_build_success e = true := by
      by_cases hpb : post_build_success e = true
      · exact hpb
      · rw [build_job_status, if_neg hpb] at h
        exact absurd h (by decide)
    obtain ⟨⟨hp, hl⟩, hu⟩ :
        (e.pushTagOk = true ∧ e.pushLatestOk = true) ∧ e.updateServiceAccepted = true := by
      simpa [post_build_success, Bool.and_eq_true] using hs
    simp [post_build_trace, hp, hl, hu]
  · intro hu
    have hs : post_build_success e = false := by
      simp [post_build_success, hu]
    rw [build_job_status, if_neg (by simp [hs])]

/-- Claim C9, witness: with all three post_build calls succeeding the trace is
push, push, force-new-deployment, write image definitions; with the
update-service call rejected the build job status is FAILED. -/
theorem post_build_rollout_gate_witness :
    post_build_trace ⟨true, true, true⟩ "abc1234"
      = [PostAct.pushImage "abc1234", PostAct.pushImage "latest",
         PostAct.forceNewDeployment, PostAct.writeImageDefinitions]
    ∧ build_job_status ⟨true, true, false⟩ = "FAILED" :=
  ⟨(post_build_rollout_gate ⟨true, true, true⟩ "abc1234").1 (by decide),
   (post_build_rollout_gate ⟨true, true, false⟩ "abc1234").2 rfl⟩

/-- Claim C3, counterexample: in `scripts/deploy.sh` (one of the claim's cited
sources), a stabilization-wait failure aborts the run under `set -e` with exit
code 1 — the trace ends immediately after the wait — so the pipeline surfaces
no diagnostic bundle at all, although it does skip the Health Verifier; the
claim's mandatory diagnostics are absent. -/
theorem deploy_sh_stab_failure_no_diagnostics :
    deploy_run envStabFail = some (stabFail_trace, 1)
    ∧ deploy_exit envStabFail = some 1
    ∧ trace_count envStabFail Stage.diagnostics = 0
    ∧ trace_count envStabFail Stage.healthVerify = 0 := by
  decide

/-- Claim C3, amended: on a stabilization failure every pipeline variant
aborts with exit code 1 and never invokes the Health Verifier, but the
diagnostic bundle — desired/running/pending counts, the five most recent
service events in order, and stop reasons of up to three stopped tasks when
any exist — is retrieved and surfaced only by the co-located variant with the
explicit 600-second bound; `scripts/deploy.sh`'s bare services-stable wait
aborts with no diagnostics. -/
theorem stabilization_failure_behavior (e : StabEnv) (d : DeployEnv)
    (h : e.stableWithinTimeout = false) (hd : d.servicesStableOk = false) :
    ((part000_verify e).snd = 1
     ∧ StabAct.showCounts e.desired e.running e.pending ∈ (part000_verify e).fst
     ∧ StabAct.showEvents (e.events.take 5) ∈ (part000_verify e).fst
     ∧ (e.stoppedTasks ≠ [] →
         StabAct.showStopReasons (e.stoppedTasks.take 3) ∈ (part000_verify e).fst)
     ∧ StabAct.probeHealth ∉ (part000_verify e).fst)
    ∧ (∀ tr code, deploy_run d = some (tr, code) →
        code = 1 ∧ Stage.healthVerify ∉ tr ∧ Stage.diagnostics ∉ tr) := by
  constructor
  · exact stabilization_timeout_diagnostics e h
  · intro tr code hrun
    unfold deploy_run at hrun
    by_cases hp : d.pulumiOk = true
    · rw [if_pos hp] at hrun
      cases h1 : (wait_for_build d.migBuildStatuses).fst with
      | none => rw [h1] at hrun; cases hrun
      | some b1 =>
        cases b1 with
        | false =>
          rw [h1] at hrun
          cases hrun
          exact ⟨rfl, by decide, by decide⟩
        | true =>
          rw [h1] at hrun
          cases h2 : (wait_for_build d.migRunStatuses).fst with
          | none => rw [h2] at hrun; cases hrun
          | some b2 =>
            cases b2 with
            | false =>
              rw [h2] at hrun
              cases hrun
              exact ⟨rfl, by decide, by decide⟩
            | true =>
              rw [h2] at hrun
              cases h3 : (wait_for_build d.appBuildStatuses).fst with
              | none => rw [h3] at hrun; cases hrun
              | some b3 =>
                cases b3 with
                | false =>
                  rw [h3] at hrun
                  cases hrun
                  exact ⟨rfl, by decide, by decide⟩
                | true =>
                  rw [h3] at hrun
                  by_cases hu : d.updateServiceOk = true
                  · rw [if_pos hu] at hrun
                    rw [if_neg (by simp [hd])] at hrun
                    cases hrun
                    exact ⟨rfl, by decide, by decide⟩
                  · rw [if_neg hu] at hrun
                    cases hrun
                    exact ⟨rfl, by decide, by decide⟩
    · rw [if_neg hp] at hrun
      cases hrun
      exact ⟨rfl, by decide, by decide⟩

/-- Claim C3, amended claim's witness: the co-located variant's failure branch
surfaces the concrete stop reason and exits 1, while the `deploy.sh` run with
the same stabilization failure exits 1 with neither health probe nor
diagnostics in its trace. -/
theorem stabilization_failure_behavior_witness :
    ((part000_verify stab_env_example).snd = 1
     ∧ StabAct.showCounts stab_env_example.desired stab_env_example.running
         stab_env_example.pending ∈ (part000_verify stab_env_example).fst
     ∧ StabAct.showEvents (stab_env_example.events.take 5)
         ∈ (part000_verify stab_env_example).fst
     ∧ (stab_env_example.stoppedTasks ≠ [] →
         StabAct.showStopReasons (stab_env_example.stoppedTasks.take 3)
           ∈ (part000_verify stab_env_example).fst)
     ∧ StabAct.probeHealth ∉ (part000_verify stab_env_example).fst)
    ∧ (1 = 1 ∧ Stage.healthVerify ∉ stabFail_trace ∧ Stage.diagnostics ∉ stabFail_trace) :=
  ⟨(stabilization_failure_behavior stab_env_example envStabFail rfl rfl).1,
   (stabilization_failure_behavior stab_env_example envStabFail rfl rfl).2
     stabFail_trace 1 (by decide)⟩
